import Mathlib

/-!
Shallow embedding of the gramgrid-api server (src/server.js, src/auth.js,
src/gramgrid-db.js).

Modelling conventions:
* JSON values are modelled by the inductive `GramGrid.Json`; JSON numbers are
  modelled as `Int` (no claim depends on non-integral numerics).
* `JSON.stringify` / `JSON.parse` round-trip is modelled as the identity, so
  the store holds the `Json` value that the code holds in serialized form.
* SQLite's `daily_puzzles` table (gramgrid-db.js lines 9-16) is modelled as a
  list of rows in rowid order.  Only the columns the server reads or writes
  (`puzzle_date`, `puzzle_level`, `puzzle_data`) are modelled; `id`,
  `created_at` and `updated_at` are never read by any query in server.js.
  The table declares `puzzle_date DATE UNIQUE NOT NULL`, i.e. the UNIQUE
  constraint is on the date column alone, so `INSERT OR REPLACE` deletes any
  existing row with the same date (whatever its level) before inserting.
* SQLite compares the TEXT-stored dates as strings; this is modelled with
  `String` comparison, `decide`-able in Lean.
-/

namespace GramGrid

/-- JSON values (request/response bodies and stored puzzle content). -/
inductive Json where
  | null
  | bool (b : Bool)
  | num (n : Int)
  | str (s : String)
  | arr (elems : List Json)
  | obj (fields : List (String × Json))

/-- Field lookup on a JSON object, `none` on any other value: models the
JavaScript property access `x.f` returning `undefined` when absent. -/
def Json.lookup : Json → String → Option Json
  | .obj fields, k => List.lookup k fields
  | _, _ => none

/-- JavaScript truthiness of a JSON value. -/
def Json.truthy : Json → Bool
  | .null => false
  | .bool b => b
  | .num n => n != 0
  | .str s => !s.isEmpty
  | .arr _ => true
  | .obj _ => true

/-- JavaScript truthiness of a possibly-`undefined` value (`none` is
`undefined`). -/
def truthyOpt : Option Json → Bool
  | none => false
  | some j => j.truthy

/-- Models the JavaScript expression `o || d` for a possibly-`undefined`
string `o` (the empty string is falsy). -/
def jsOrStr (o : Option String) (d : String) : String :=
  match o with
  | some s => if s.isEmpty then d else s
  | none => d

/-- JavaScript `toUpperCase()` on the ASCII strings the server handles. -/
def jsToUpper (s : String) : String :=
  String.mk (s.data.map Char.toUpper)

/-- Split on a single separator character (JavaScript
`split(c)`: splitting the empty string gives one empty chunk). -/
def splitOnCharAux (c : Char) : List Char → List Char → List String
  | [], acc => [String.mk acc.reverse]
  | x :: xs, acc =>
    if x == c then String.mk acc.reverse :: splitOnCharAux c xs []
    else splitOnCharAux c xs (x :: acc)

/-- Split a string on a separator character. -/
def splitOnChar (c : Char) (s : String) : List String :=
  splitOnCharAux c s.data []

/-- Whether `p` is a leading substring of `s` (JavaScript
`s.startsWith(p)`, Express route-mount matching). -/
def strStartsWith (s p : String) : Bool :=
  p.data.isPrefixOf s.data

/-- The first `n` characters of a string (JavaScript `substring(0, n)` on
the ASCII strings the server handles). -/
def strTake (s : String) (n : Nat) : String :=
  String.mk (s.data.take n)

/-- One row of the `daily_puzzles` table: the columns server.js reads or
writes. -/
structure Row where
  date : String
  level : String
  data : Json

/-- The `daily_puzzles` table in rowid order. -/
abbrev Store := List Row

/-! ### Date handling

`isValidDateFormat` embeds the regular expression
`/^\d{4}-\d{2}-\d{2}$/` used at server.js lines 162 and 286.
The Gregorian helpers embed SQLite's `date(x, '-6 days')` used by the
week query (server.js line 77): SQLite parses the date (returning NULL for
strings that are not real calendar dates) and subtracts six calendar days. -/

/-- The regular expression test `/^\d{4}-\d{2}-\d{2}$/.test(s)`. -/
def isValidDateFormat (s : String) : Bool :=
  match s.data with
  | [y1, y2, y3, y4, h1, m1, m2, h2, d1, d2] =>
    y1.isDigit && y2.isDigit && y3.isDigit && y4.isDigit && h1 == '-' &&
    m1.isDigit && m2.isDigit && h2 == '-' && d1.isDigit && d2.isDigit
  | _ => false

/-- A calendar date, year-month-day. -/
structure YMD where
  y : Nat
  m : Nat
  d : Nat
  deriving DecidableEq

/-- Gregorian leap year. -/
def isLeap (y : Nat) : Bool :=
  (y % 4 == 0 && y % 100 != 0) || y % 400 == 0

/-- Number of days in a Gregorian month. -/
def daysInMonth (y m : Nat) : Nat :=
  if m == 2 then (if isLeap y then 29 else 28)
  else if m == 4 || m == 6 || m == 9 || m == 11 then 30
  else 31

/-- The calendar day before a given day. -/
def prevDay (x : YMD) : YMD :=
  if x.d > 1 then ⟨x.y, x.m, x.d - 1⟩
  else if x.m > 1 then ⟨x.y, x.m - 1, daysInMonth x.y (x.m - 1)⟩
  else ⟨x.y - 1, 12, 31⟩

/-- Numeric value of a decimal digit character. -/
def digitVal (c : Char) : Nat := c.toNat - 48

/-- Parse a `YYYY-MM-DD` string into a `YMD`, requiring the strict format
and that the month and day denote a real calendar date (as SQLite's date
functions do; they return NULL otherwise). -/
def parseDate (s : String) : Option YMD :=
  match s.data with
  | [y1, y2, y3, y4, h1, m1, m2, h2, d1, d2] =>
    if (y1.isDigit && y2.isDigit && y3.isDigit && y4.isDigit && h1 == '-' &&
        m1.isDigit && m2.isDigit && h2 == '-' && d1.isDigit && d2.isDigit) then
      let y := ((digitVal y1 * 10 + digitVal y2) * 10 + digitVal y3) * 10 + digitVal y4
      let m := digitVal m1 * 10 + digitVal m2
      let d := digitVal d1 * 10 + digitVal d2
      if 1 ≤ m && m ≤ 12 && 1 ≤ d && d ≤ daysInMonth y m then some ⟨y, m, d⟩
      else none
    else none
  | _ => none

/-- Zero-padded two-digit decimal rendering (for months and days). -/
def pad2 (n : Nat) : String :=
  String.mk [Char.ofNat (48 + n / 10 % 10), Char.ofNat (48 + n % 10)]

/-- Zero-padded four-digit decimal rendering (for years). -/
def pad4 (n : Nat) : String :=
  String.mk [Char.ofNat (48 + n / 1000 % 10), Char.ofNat (48 + n / 100 % 10),
             Char.ofNat (48 + n / 10 % 10), Char.ofNat (48 + n % 10)]

/-- Render a `YMD` as a `YYYY-MM-DD` string. -/
def formatDate (x : YMD) : String :=
  pad4 x.y ++ "-" ++ pad2 x.m ++ "-" ++ pad2 x.d

/-- SQLite's `date(s, '-6 days')`: NULL (`none`) unless `s` is a real
calendar date in `YYYY-MM-DD` form, else the date six days earlier. -/
def sqlDateSub6 (s : String) : Option String :=
  (parseDate s).map (fun x => formatDate (prevDay^[6] x))

/-! ### Prepared statements (server.js lines 68-80) -/

/-- `SELECT puzzle_data FROM daily_puzzles WHERE puzzle_date = ? AND
puzzle_level = ?` followed by `.get` (first matching row, if any). -/
def getPuzzleByDate (st : Store) (date level : String) : Option Json :=
  (st.filter (fun r => r.date == date && r.level == level)).head?.map (·.data)

/-- Descending sort on the date column, `ORDER BY puzzle_date DESC`
(SQLite compares the TEXT dates as strings). -/
def sortByDateDesc (l : List Row) : List Row :=
  l.mergeSort (fun a b => b.date ≤ a.date)

/-- `SELECT puzzle_date, puzzle_data FROM daily_puzzles ORDER BY puzzle_date
DESC` followed by `.all`: note that `puzzle_level` is not selected. -/
def getAllPuzzles (st : Store) : List (String × Json) :=
  (sortByDateDesc st).map (fun r => (r.date, r.data))

/-- `INSERT OR REPLACE INTO daily_puzzles (puzzle_date, puzzle_level,
puzzle_data) VALUES (?, ?, ?)`.  Because the table declares
`puzzle_date DATE UNIQUE`, REPLACE deletes every existing row with the same
date — whatever its level — then appends the new row. -/
def insertPuzzle (st : Store) (date level : String) (data : Json) : Store :=
  st.filter (fun r => !(r.date == date)) ++ [⟨date, level, data⟩]

/-- `DELETE FROM daily_puzzles WHERE puzzle_date = ?` followed by `.run`:
returns the new table and the number of changed (deleted) rows. -/
def deletePuzzle (st : Store) (date : String) : Store × Nat :=
  (st.filter (fun r => !(r.date == date)),
   (st.filter (fun r => r.date == date)).length)

/-- The week query (server.js lines 74-80):
`SELECT puzzle_date, puzzle_level, puzzle_data FROM daily_puzzles
 WHERE puzzle_date >= date(?, '-6 days') AND puzzle_date <= ?
   AND puzzle_level = ? ORDER BY puzzle_date DESC`.
When `date(p1, '-6 days')` is NULL the comparison is NULL and no row
matches. -/
def getWeekPuzzles (st : Store) (p1 p2 level : String) : List Row :=
  match sqlDateSub6 p1 with
  | none => []
  | some lo =>
    sortByDateDesc (st.filter (fun r =>
      decide (lo ≤ r.date) && decide (r.date ≤ p2) && r.level == level))

/-! ### HTTP responses and endpoint handlers -/

/-- An HTTP response: status code and JSON body. -/
structure Response where
  status : Nat
  body : Json

/-- A JSON error body `\x7b error: msg \x7d`. -/
def errBody (msg : String) : Json := .obj [("error", .str msg)]

/-- The level whitelist check `['CL', 'CH'].includes((jsToUpper level)Case())`
(server.js lines 167, 197, 227, 291). -/
def levelOk (level : String) : Bool := ["CL", "CH"].contains (jsToUpper level)

/-- `GET /api/puzzle/:date` handler (server.js lines 156-188). -/
def handleGetPuzzleByDate (st : Store) (date : String) (levelQ : Option String) :
    Response :=
  let level := jsOrStr levelQ "CL"
  if !(isValidDateFormat date) then
    { status := 400, body := errBody "Invalid date format. Use YYYY-MM-DD" }
  else if !(levelOk level) then
    { status := 400, body := errBody "Invalid level. Use CL (Classic) or CH (Challenge)" }
  else
    match getPuzzleByDate st date (jsToUpper level) with
    | none => { status := 404, body := errBody "Puzzle not found for this date and level" }
    | some pd =>
      { status := 200,
        body := .obj [("date", .str date), ("level", .str (jsToUpper level)), ("puzzle", pd)] }

/-- `GET /api/puzzle/today` handler (server.js lines 191-218); `today` is the
UTC calendar date string computed from the server clock. -/
def handleGetToday (st : Store) (today : String) (levelQ : Option String) :
    Response :=
  let level := jsOrStr levelQ "CL"
  if !(levelOk level) then
    { status := 400, body := errBody "Invalid level. Use CL (Classic) or CH (Challenge)" }
  else
    match getPuzzleByDate st today (jsToUpper level) with
    | none =>
      { status := 404, body := errBody ("No " ++ (jsToUpper level) ++ " puzzle available for today") }
    | some pd =>
      { status := 200,
        body := .obj [("date", .str today), ("level", .str (jsToUpper level)), ("puzzle", pd)] }

/-- `GET /api/puzzles/week` handler (server.js lines 221-257). -/
def handleWeek (st : Store) (today : String) (levelQ : Option String) :
    Response :=
  let level := jsOrStr levelQ "CL"
  if !(levelOk level) then
    { status := 400, body := errBody "Invalid level. Use CL (Classic) or CH (Challenge)" }
  else
    let results := getWeekPuzzles st today today (jsToUpper level)
    if results.isEmpty then
      { status := 404, body := errBody ("No " ++ (jsToUpper level) ++ " puzzles found for this week") }
    else
      let puzzles := results.map (fun r =>
        Json.obj [("date", .str r.date), ("level", .str r.level), ("puzzle", r.data)])
      { status := 200,
        body := .obj [("level", .str (jsToUpper level)),
                      ("puzzles", .arr puzzles),
                      ("count", .num puzzles.length),
                      ("dateRange", .obj
                        [("from", ((results.getLast?).map (fun r => Json.str r.date)).getD .null),
                         ("to", ((results.head?).map (fun r => Json.str r.date)).getD .null)])] }

/-- `GET /api/puzzles` handler (server.js lines 260-274): maps each selected
row to an object with only `date` and `puzzle` fields. -/
def handleAllPuzzles (st : Store) : Response :=
  let puzzles := (getAllPuzzles st).map (fun p =>
    Json.obj [("date", .str p.1), ("puzzle", p.2)])
  { status := 200, body := .obj [("puzzles", .arr puzzles)] }

/-- `POST /api/puzzle` handler (server.js lines 277-313).  The body fields
`date`, `level` and `puzzle` are modelled as already-destructured optional
values (absent field = `undefined` = `none`); `date` and `level` are taken
as strings as the handler uses them. -/
def handlePostPuzzle (st : Store) (dateO levelO : Option String)
    (puzzleO : Option Json) : Response × Store :=
  match dateO, levelO, puzzleO with
  | some date, some level, some puzzle =>
    if date.isEmpty || level.isEmpty || !puzzle.truthy then
      ({ status := 400, body := errBody "Date, level, and puzzle data are required" }, st)
    else if !(isValidDateFormat date) then
      ({ status := 400, body := errBody "Invalid date format. Use YYYY-MM-DD" }, st)
    else if !(levelOk level) then
      ({ status := 400, body := errBody "Invalid level. Use CL (Classic) or CH (Challenge)" }, st)
    else if !(truthyOpt (puzzle.lookup "words")) || !(truthyOpt (puzzle.lookup "targets")) ||
            !(truthyOpt (puzzle.lookup "solution")) then
      ({ status := 400, body := errBody "Puzzle must have words, targets, and solution" }, st)
    else
      ({ status := 201,
         body := .obj [("message", .str "Puzzle created successfully"),
                       ("date", .str date), ("level", .str (jsToUpper level)),
                       ("puzzle", puzzle)] },
       insertPuzzle st date (jsToUpper level) puzzle)
  | _, _, _ =>
    ({ status := 400, body := errBody "Date, level, and puzzle data are required" }, st)

/-- `DELETE /api/puzzle/:date` handler (server.js lines 316-332).  Note: no
date-format validation is performed; the raw path segment goes straight to
the DELETE statement. -/
def handleDeletePuzzle (st : Store) (date : String) : Response × Store :=
  let result := deletePuzzle st date
  if result.2 == 0 then
    ({ status := 404, body := errBody "Puzzle not found" }, result.1)
  else
    ({ status := 200, body := .obj [("message", .str "Puzzle deleted successfully")] }, result.1)

/-! ### MD5 (the `crypto.createHash('md5')` digest), per RFC 1321,
over byte lists, with 32-bit words as `Nat` reduced mod `2 ^ 32`. -/

/-- 32-bit left rotation. -/
def rotl32 (x n : Nat) : Nat :=
  ((x <<< n) % 4294967296) ||| (x >>> (32 - n))

/-- 32-bit bitwise complement. -/
def not32 (x : Nat) : Nat := x ^^^ 4294967295

/-- The 64 MD5 sine-derived constants. -/
def md5K : List Nat :=
  [0xd76aa478, 0xe8c7b756, 0x242070db, 0xc1bdceee,
   0xf57c0faf, 0x4787c62a, 0xa8304613, 0xfd469501,
   0x698098d8, 0x8b44f7af, 0xffff5bb1, 0x895cd7be,
   0x6b901122, 0xfd987193, 0xa679438e, 0x49b40821,
   0xf61e2562, 0xc040b340, 0x265e5a51, 0xe9b6c7aa,
   0xd62f105d, 0x02441453, 0xd8a1e681, 0xe7d3fbc8,
   0x21e1cde6, 0xc33707d6, 0xf4d50d87, 0x455a14ed,
   0xa9e3e905, 0xfcefa3f8, 0x676f02d9, 0x8d2a4c8a,
   0xfffa3942, 0x8771f681, 0x6d9d6122, 0xfde5380c,
   0xa4beea44, 0x4bdecfa9, 0xf6bb4b60, 0xbebfbc70,
   0x289b7ec6, 0xeaa127fa, 0xd4ef3085, 0x04881d05,
   0xd9d4d039, 0xe6db99e5, 0x1fa27cf8, 0xc4ac5665,
   0xf4292244, 0x432aff97, 0xab9423a7, 0xfc93a039,
   0x655b59c3, 0x8f0ccc92, 0xffeff47d, 0x85845dd1,
   0x6fa87e4f, 0xfe2ce6e0, 0xa3014314, 0x4e0811a1,
   0xf7537e82, 0xbd3af235, 0x2ad7d2bb, 0xeb86d391]

/-- The 64 MD5 per-round shift amounts. -/
def md5S : List Nat :=
  [7, 12, 17, 22, 7, 12, 17, 22, 7, 12, 17, 22, 7, 12, 17, 22,
   5, 9, 14, 20, 5, 9, 14, 20, 5, 9, 14, 20, 5, 9, 14, 20,
   4, 11, 16, 23, 4, 11, 16, 23, 4, 11, 16, 23, 4, 11, 16, 23,
   6, 10, 15, 21, 6, 10, 15, 21, 6, 10, 15, 21, 6, 10, 15, 21]

/-- Little-endian 32-bit word `g` of a 64-byte chunk. -/
def wordAt (chunk : List Nat) (g : Nat) : Nat :=
  chunk.getD (4 * g) 0 + 256 * chunk.getD (4 * g + 1) 0 +
  65536 * chunk.getD (4 * g + 2) 0 + 16777216 * chunk.getD (4 * g + 3) 0

/-- One MD5 round applied to the running state `(a, b, c, d)`. -/
def md5Round (chunk : List Nat) (s : Nat × Nat × Nat × Nat) (i : Nat) :
    Nat × Nat × Nat × Nat :=
  let (a, b, c, d) := s
  let fg : Nat × Nat :=
    if i < 16 then ((b &&& c) ||| (not32 b &&& d), i)
    else if i < 32 then ((d &&& b) ||| (not32 d &&& c), (5 * i + 1) % 16)
    else if i < 48 then (b ^^^ c ^^^ d, (3 * i + 5) % 16)
    else (c ^^^ (b ||| not32 d), (7 * i) % 16)
  let f := (fg.1 + a + md5K.getD i 0 + wordAt chunk fg.2) % 4294967296
  (d, (b + rotl32 f (md5S.getD i 0)) % 4294967296, b, c)

/-- Process one 64-byte chunk. -/
def md5Chunk (s : Nat × Nat × Nat × Nat) (chunk : List Nat) :
    Nat × Nat × Nat × Nat :=
  let (a0, b0, c0, d0) := s
  let (a, b, c, d) := (List.range 64).foldl (md5Round chunk) (a0, b0, c0, d0)
  ((a0 + a) % 4294967296, (b0 + b) % 4294967296,
   (c0 + c) % 4294967296, (d0 + d) % 4294967296)

/-- Split a byte list into 64-byte chunks. -/
def chunks64 (l : List Nat) : List (List Nat) :=
  if h : l = [] then []
  else l.take 64 :: chunks64 (l.drop 64)
termination_by l.length
decreasing_by
  simp only [List.length_drop]
  have : l.length ≠ 0 := fun hl => h (List.length_eq_zero.mp hl)
  omega

/-- MD5 padding: a `0x80` byte, zeros to 56 mod 64, then the bit length as
eight little-endian bytes. -/
def md5Pad (msg : List Nat) : List Nat :=
  let bitLen := (msg.length * 8) % 18446744073709551616
  msg ++ [128] ++ List.replicate ((119 - msg.length % 64) % 64) 0 ++
    [bitLen % 256, bitLen / 256 % 256, bitLen / 65536 % 256,
     bitLen / 16777216 % 256, bitLen / 4294967296 % 256,
     bitLen / 1099511627776 % 256, bitLen / 281474976710656 % 256,
     bitLen / 72057594037927936 % 256]

/-- Little-endian bytes of a 32-bit word. -/
def wordBytes (w : Nat) : List Nat :=
  [w % 256, w / 256 % 256, w / 65536 % 256, w / 16777216 % 256]

/-- The 16-byte MD5 digest of a byte list. -/
def md5 (msg : List Nat) : List Nat :=
  let s := (chunks64 (md5Pad msg)).foldl md5Chunk
    (0x67452301, 0xefcdab89, 0x98badcfe, 0x10325476)
  wordBytes s.1 ++ wordBytes s.2.1 ++ wordBytes s.2.2.1 ++ wordBytes s.2.2.2

/-- Lower-case hexadecimal digit. -/
def hexDigit (n : Nat) : Char :=
  Char.ofNat (if n < 10 then 48 + n else 87 + n)

/-- Two lower-case hex characters of a byte. -/
def byteHex (b : Nat) : List Char :=
  [hexDigit (b / 16 % 16), hexDigit (b % 16)]

/-- The hex digest string, as `.digest('hex')` produces. -/
def md5Hex (msg : List Nat) : String :=
  String.mk ((md5 msg).flatMap byteHex)

/-- UTF-8 bytes of a string, as `hash.update(string)` consumes. -/
def strToBytes (s : String) : List Nat :=
  s.toUTF8.toList.map (fun b => b.toNat)

/-! ### Requests, analytics and authentication -/

/-- An inbound HTTP request: the parts of the Express request object the
server reads.  Header fields are `none` when the header is absent; the
`date`, `level` and `puzzle` body fields are read through `Json.lookup` on
`body`. -/
structure HttpReq where
  method : String
  path : String
  query : List (String × String)
  body : Json
  xForwardedFor : Option String
  userAgent : Option String
  xApiKey : Option String
  authorization : Option String
  remoteAddress : Option String
  socketRemoteAddress : Option String

/-- `getClientIP` (server.js lines 90-95):
`req.headers['x-forwarded-for']?.split(',')[0] || req.connection.remoteAddress
 || req.socket.remoteAddress || '0.0.0.0'`. -/
def getClientIP (req : HttpReq) : String :=
  jsOrStr (req.xForwardedFor.map (fun s => (splitOnChar ',' s).headD ""))
    (jsOrStr req.remoteAddress (jsOrStr req.socketRemoteAddress "0.0.0.0"))

/-- `generateUserID` (server.js lines 97-101): the MD5 hex digest of the
concatenation of the client IP and the user-agent, truncated by
`.substring(0, 8)` (`String.take` on the ASCII hex digest). -/
def generateUserID (req : HttpReq) : String :=
  let ip := getClientIP req
  let userAgent := jsOrStr req.userAgent ""
  strTake (md5Hex (strToBytes (ip ++ userAgent))) 8

/-- One row of the `analytics` table (the columns `trackEvent` writes). -/
structure AnalyticsRow where
  eventType : String
  userId : String
  puzzleDate : Option String
  userAgent : String
  ipAddress : String
  metadata : Json

/-- `trackEvent` (server.js lines 103-116): appends one analytics row. -/
def trackEvent (log : List AnalyticsRow) (eventType : String) (req : HttpReq)
    (puzzleDate : Option String) (metadata : Json) : List AnalyticsRow :=
  log ++ [{ eventType := eventType, userId := generateUserID req,
            puzzleDate := puzzleDate,
            userAgent := jsOrStr req.userAgent "unknown",
            ipAddress := getClientIP req, metadata := metadata }]

/-- The metadata object recorded by the analytics middleware. -/
def apiRequestMetadata (req : HttpReq) : Json :=
  .obj [("method", .str req.method), ("path", .str req.path),
        ("query", .obj (req.query.map (fun p => (p.1, Json.str p.2))))]

/-- The analytics middleware (server.js lines 119-128): tracks an
`api_request` event for every GET whose path starts with `/api/puzzle`,
before any later middleware or route runs. -/
def analyticsMiddleware (log : List AnalyticsRow) (req : HttpReq) :
    List AnalyticsRow :=
  if strStartsWith req.path "/api/puzzle" && req.method == "GET" then
    trackEvent log "api_request" req none (apiRequestMetadata req)
  else log

/-- Replace the first occurrence of a nonempty character pattern. -/
def replaceFirstAux (pat repl : List Char) : List Char → List Char
  | [] => []
  | x :: xs =>
    if pat.isPrefixOf (x :: xs) then repl ++ (x :: xs).drop pat.length
    else x :: replaceFirstAux pat repl xs

/-- JavaScript `String.prototype.replace` with a string pattern: replaces
only the first occurrence. -/
def replaceFirst (s pat repl : String) : String :=
  String.mk (replaceFirstAux pat.data repl.data s.data)

/-- Models `a || b` where both sides are possibly-`undefined` strings. -/
def jsOrOpt (a b : Option String) : Option String :=
  match a with
  | some s => if s.isEmpty then b else some s
  | none => b

/-- The 401 response sent when no API key is supplied. -/
def apiKeyRequiredResp : Response where
  status := 401
  body := .obj [("error", .str "API key required"),
    ("message", .str "Please provide an API key in the x-api-key header or Authorization header")]

/-- The 401 response sent when the supplied API key mismatches. -/
def invalidApiKeyResp : Response where
  status := 401
  body := .obj [("error", .str "Invalid API key"),
    ("message", .str "The provided API key is not valid")]

/-- `authenticateApiKey` (auth.js): `some response` when the request is
rejected, `none` when it may proceed.  `envApiKey` is
`process.env.API_KEY` (`none` when unset). -/
def authenticateApiKey (envApiKey : Option String) (req : HttpReq) :
    Option Response :=
  let apiKey := jsOrOpt req.xApiKey
    (req.authorization.map (fun a => replaceFirst a "Bearer " ""))
  match apiKey with
  | none => some apiKeyRequiredResp
  | some k =>
    if k.isEmpty then some apiKeyRequiredResp
    else if envApiKey != some k then some invalidApiKeyResp
    else none

/-! ### Express routing

GET routes are modelled as a table of path patterns in registration order
(server.js lines 156, 191, 221, 260, 355); Express dispatches to the first
registered route whose pattern matches, so `/api/puzzle/:date` — registered
before `/api/puzzle/today` — captures the literal path segment `today` as
its `:date` parameter. -/

/-- A path-pattern segment: a literal, or a `:name` parameter. -/
inductive Seg where
  | lit (s : String)
  | param

/-- Whether one pattern segment matches one path segment. -/
def segMatches : Seg → String → Bool
  | .lit s, t => s == t
  | .param, _ => true

/-- Whether a pattern matches a path (segment lists of equal length,
position-wise). -/
def patMatches (pat : List Seg) (segs : List String) : Bool :=
  pat.length == segs.length && (pat.zip segs).all (fun p => segMatches p.1 p.2)

/-- The path segments captured by the parameters of a matching pattern. -/
def capturedParams (pat : List Seg) (segs : List String) : List String :=
  (pat.zip segs).filterMap (fun p =>
    match p.1 with
    | .param => some p.2
    | .lit _ => none)

/-- Path split into nonempty segments. -/
def splitPath (p : String) : List String :=
  (splitOnChar '/' p).filter (fun s => !s.isEmpty)

/-- `GET /api/analytics/stats` (server.js lines 355-433).  Only the
`totals.totalEvents` sub-result (`COUNT(*)` over the analytics table) is
modelled; the other aggregate sub-results are outside every claim. -/
def handleAnalyticsStats (log : List AnalyticsRow) : Response :=
  { status := 200,
    body := .obj [("totals", .obj [("totalEvents", .num log.length)])] }

/-- The GET route table under authentication, in registration order. -/
def getRoutes :
    List (List Seg ×
      (Store → List AnalyticsRow → String → List String → Option String → Response)) :=
  [([.lit "api", .lit "puzzle", .param],
    fun st _ _ ps lq => handleGetPuzzleByDate st (ps.headD "") lq),
   ([.lit "api", .lit "puzzle", .lit "today"],
    fun st _ today _ lq => handleGetToday st today lq),
   ([.lit "api", .lit "puzzles", .lit "week"],
    fun st _ today _ lq => handleWeek st today lq),
   ([.lit "api", .lit "puzzles"],
    fun st _ _ _ _ => handleAllPuzzles st),
   ([.lit "api", .lit "analytics", .lit "stats"],
    fun _ log _ _ _ => handleAnalyticsStats log)]

/-- The uniform response of the trailing 404 handler (server.js
lines 442-444). -/
def endpointNotFoundResp : Response :=
  { status := 404, body := errBody "Endpoint not found" }

/-- Dispatch an authenticated GET to the first matching route. -/
def dispatchGet (st : Store) (log : List AnalyticsRow) (today : String)
    (path : String) (levelQ : Option String) : Response :=
  match getRoutes.find? (fun r => patMatches r.1 (splitPath path)) with
  | some r => r.2 st log today (capturedParams r.1 (splitPath path)) levelQ
  | none => endpointNotFoundResp

/-- A body field read as a string (`none` when absent or not a string; the
handlers use these fields as strings). -/
def asStr (o : Option Json) : Option String :=
  match o with
  | some (.str s) => some s
  | _ => none

/-- `POST /api/analytics/event` (server.js lines 337-352). -/
def handleAnalyticsEvent (log : List AnalyticsRow) (req : HttpReq) :
    Response × List AnalyticsRow :=
  match req.body.lookup "eventType" with
  | some (.str s) =>
    if s.isEmpty then
      ({ status := 400, body := errBody "eventType is required" }, log)
    else
      let md := match req.body.lookup "metadata" with
        | some j => if j.truthy then j else .obj []
        | none => .obj []
      ({ status := 200, body := .obj [("success", .bool true)] },
       trackEvent log s req (asStr (req.body.lookup "puzzleDate")) md)
  | _ => ({ status := 400, body := errBody "eventType is required" }, log)

/-- Dispatch of an authenticated `/api` request by method and path. -/
def dispatchApi (st : Store) (log : List AnalyticsRow) (today : String)
    (req : HttpReq) : Response × Store × List AnalyticsRow :=
  if req.method == "GET" then
    (dispatchGet st log today req.path (List.lookup "level" req.query), st, log)
  else if req.method == "POST" && req.path == "/api/puzzle" then
    let r := handlePostPuzzle st (asStr (req.body.lookup "date"))
      (asStr (req.body.lookup "level")) (req.body.lookup "puzzle")
    (r.1, r.2, log)
  else if req.method == "POST" && req.path == "/api/analytics/event" then
    let r := handleAnalyticsEvent log req
    (r.1, st, r.2)
  else if req.method == "DELETE" then
    match splitPath req.path with
    | ["api", "puzzle", d] =>
      let r := handleDeletePuzzle st d
      (r.1, r.2, log)
    | _ => (endpointNotFoundResp, st, log)
  else (endpointNotFoundResp, st, log)

/-- The whole request pipeline (server.js): the analytics middleware runs
first for every request, then the public routes `/` and `/health`, then —
for paths mounted under `/api` — the authentication middleware, then the
routes.  `nowIso` is `new Date().toISOString()`; `today` is its date part
(`.split('T')[0]`). -/
def handleApp (envApiKey : Option String) (st : Store)
    (log : List AnalyticsRow) (nowIso : String) (req : HttpReq) :
    Response × Store × List AnalyticsRow :=
  let today := (splitOnChar 'T' nowIso).headD ""
  let log1 := analyticsMiddleware log req
  if req.method == "GET" && req.path == "/" then
    ({ status := 200,
       body := .obj [("message",
         .str "API is running. Authentication required for protected routes.")] },
     st, log1)
  else if req.method == "GET" && req.path == "/health" then
    ({ status := 200,
       body := .obj [("status", .str "healthy"), ("timestamp", .str nowIso)] },
     st, log1)
  else if req.path == "/api" || strStartsWith req.path "/api/" then
    match authenticateApiKey envApiKey req with
    | some resp => (resp, st, log1)
    | none => dispatchApi st log1 today req
  else (endpointNotFoundResp, st, log1)

/-! ## Helper lemmas -/

/-- Re-inserting the same (date, level, data) is one insertion: the new
row's date equals the delete-filter's key both times. -/
theorem insertPuzzle_idem (st : Store) (d l : String) (c : Json) :
    insertPuzzle (insertPuzzle st d l c) d l c = insertPuzzle st d l c := by
  simp [insertPuzzle, List.filter_append, List.filter_filter]

/-- A level accepted by the whitelist is not the empty string. -/
theorem levelOk_not_empty {l : String} (h : levelOk l = true) :
    l.isEmpty = false := by
  cases he : l.isEmpty with
  | false => rfl
  | true =>
    rw [(String.isEmpty_iff l).mp he] at h
    exact absurd h (by decide)

/-- A string passing the date-format test is not the empty string. -/
theorem validDate_not_empty {d : String} (h : isValidDateFormat d = true) :
    d.isEmpty = false := by
  cases he : d.isEmpty with
  | false => rfl
  | true =>
    rw [(String.isEmpty_iff d).mp he] at h
    exact absurd h (by decide)

/-- A JSON value owning a truthy field is an object, hence truthy. -/
theorem truthy_of_field {p : Json} {k : String}
    (h : truthyOpt (p.lookup k) = true) : p.truthy = true := by
  cases p <;> simp [Json.lookup, truthyOpt, Json.truthy] at h ⊢

/-! ## The claims -/

/-- Claim C1 (code bug witnessed): a GET for the path `/api/puzzle/today`
is dispatched to the `/api/puzzle/:date` route — registered first — with
`date = "today"`, which fails the `YYYY-MM-DD` format check, so the
response is 400 Invalid date format for every store, clock and level
query; the dedicated today-handler is never reached and no point lookup
happens. -/
theorem today_route_shadowed_by_date_route (st : Store)
    (log : List AnalyticsRow) (today : String) (levelQ : Option String) :
    dispatchGet st log today "/api/puzzle/today" levelQ =
      { status := 400, body := errBody "Invalid date format. Use YYYY-MM-DD" } := rfl

/-- Claim C2 (code bug witnessed): because the table's UNIQUE constraint is
on the date alone, upserting the Challenge puzzle of a date deletes the
stored Classic puzzle of the same date: evaluated concretely, the prior
CL row is gone and its lookup now misses. -/
theorem upsert_clobbers_other_level :
    insertPuzzle [⟨"2025-07-27", "CL", .str "old"⟩] "2025-07-27" "CH" (.str "new") =
      [⟨"2025-07-27", "CH", .str "new"⟩] ∧
    getPuzzleByDate
      (insertPuzzle [⟨"2025-07-27", "CL", .str "old"⟩] "2025-07-27" "CH" (.str "new"))
      "2025-07-27" "CL" = none :=
  ⟨rfl, rfl⟩

/-- Claim C4 (counterexample): DELETE with the malformed date `20250101`
is not rejected as InvalidArgument (400); the handler runs the store
delete and reports 404. -/
theorem delete_malformed_date_not_rejected :
    (handleDeletePuzzle [] "20250101").1.status = 404 ∧
    ¬ (handleDeletePuzzle [] "20250101").1.status = 400 :=
  ⟨rfl, by decide⟩

/-- Claim C6 (counterexample): the full listing returns the stored puzzle
of `2025-07-27` (stored at level CL) as an object with only `date` and
`puzzle` fields; in particular the item has no `level` field, so the
listing does not return (date, level, content) triples. -/
theorem listing_item_has_no_level_field :
    (handleAllPuzzles [⟨"2025-07-27", "CL", Json.str "p"⟩]).body =
      Json.obj [("puzzles", Json.arr
        [Json.obj [("date", Json.str "2025-07-27"), ("puzzle", Json.str "p")]])] ∧
    (Json.obj [("date", Json.str "2025-07-27"), ("puzzle", Json.str "p")]).lookup
      "level" = none := by
  refine ⟨?_, rfl⟩
  simp [handleAllPuzzles, getAllPuzzles, sortByDateDesc]

/-- Claim C8 (confirmed): upsert is idempotent — at the statement level,
`INSERT OR REPLACE` twice with the same triple equals once; and at the
endpoint level, re-POSTing the same body leaves the same store (for any
body: an invalid body writes nothing both times). -/
theorem upsert_idempotent (st : Store) (d l : String) (c : Json)
    (dateO levelO : Option String) (puzzleO : Option Json) :
    insertPuzzle (insertPuzzle st d l c) d l c = insertPuzzle st d l c ∧
    (handlePostPuzzle (handlePostPuzzle st dateO levelO puzzleO).2
        dateO levelO puzzleO).2 =
      (handlePostPuzzle st dateO levelO puzzleO).2 := by
  refine ⟨insertPuzzle_idem st d l c, ?_⟩
  match dateO, levelO, puzzleO with
  | none, _, _ => cases levelO <;> cases puzzleO <;> rfl
  | some d0, none, _ => cases puzzleO <;> rfl
  | some d0, some l0, none => rfl
  | some d0, some l0, some p0 =>
    cases h1 : (d0.isEmpty || l0.isEmpty || !p0.truthy) <;>
    cases h2 : isValidDateFormat d0 <;>
    cases h3 : levelOk l0 <;>
    cases h4 : (!truthyOpt (p0.lookup "words") || !truthyOpt (p0.lookup "targets") ||
                !truthyOpt (p0.lookup "solution")) <;>
      simp [handlePostPuzzle, h1, h2, h3, h4, insertPuzzle_idem]

/-- Looking up the (date, level) key just written by `INSERT OR REPLACE`
returns the value just written. -/
theorem getPuzzleByDate_insert (st : Store) (d lv : String) (c : Json) :
    getPuzzleByDate (insertPuzzle st d lv c) d lv = some c := by
  have hnil : (st.filter (fun r => !(r.date == d))).filter
      (fun r => r.date == d && r.level == lv) = [] := by
    rw [List.filter_filter]
    refine List.filter_eq_nil_iff.mpr ?_
    intro r _
    cases h : (r.date == d) <;> simp [h]
  simp [getPuzzleByDate, insertPuzzle, List.filter_append, hnil]

/-- No row with a given date survives the delete statement for it. -/
theorem getPuzzleByDate_after_delete (st : Store) (d lvl : String) :
    getPuzzleByDate (st.filter (fun r => !(r.date == d))) d lvl = none := by
  have hnil : (st.filter (fun r => !(r.date == d))).filter
      (fun r => r.date == d && r.level == lvl) = [] := by
    rw [List.filter_filter]
    refine List.filter_eq_nil_iff.mpr ?_
    intro r _
    cases h : (r.date == d) <;> simp [h]
  simp [getPuzzleByDate, hnil]

/-- Claim C4 (amended, proved): the point lookup and the upsert reject a
malformed date with 400 — a response that is a constant independent of the
store — and the upsert leaves the store unchanged; the delete handler,
however, performs no date validation and passes the raw string to the
store delete, so over a store whose dates are all well-formed a malformed
date matches nothing, deletes nothing, and reports 404 NotFound. -/
theorem malformed_date_validation (st : Store) (d d2 : String)
    (lq levelB : Option String) (pz : Option Json)
    (hd : isValidDateFormat d = false)
    (hd2 : isValidDateFormat d2 = false)
    (hst : ∀ r ∈ st, isValidDateFormat r.date = true) :
    handleGetPuzzleByDate st d lq =
      { status := 400, body := errBody "Invalid date format. Use YYYY-MM-DD" } ∧
    (handlePostPuzzle st (some d2) levelB pz).1.status = 400 ∧
    (handlePostPuzzle st (some d2) levelB pz).2 = st ∧
    handleDeletePuzzle st d =
      ({ status := 404, body := errBody "Puzzle not found" }, st) := by
  have hne : ∀ r ∈ st, (r.date == d) = false := by
    intro r hr
    cases hb : (r.date == d) with
    | false => rfl
    | true =>
      have h1 := hst r hr
      rw [eq_of_beq hb, hd] at h1
      simp at h1
  have hnil : st.filter (fun r => r.date == d) = [] :=
    List.filter_eq_nil_iff.mpr (fun r hr => by simp [hne r hr])
  have hself : st.filter (fun r => !(r.date == d)) = st :=
    List.filter_eq_self.mpr (fun r hr => by simp [hne r hr])
  refine ⟨by simp [handleGetPuzzleByDate, hd], ?_, ?_, ?_⟩
  · cases levelB with
    | none => rfl
    | some l0 =>
      cases pz with
      | none => rfl
      | some p0 =>
        cases h1 : (d2.isEmpty || l0.isEmpty || !p0.truthy) <;>
          simp [handlePostPuzzle, h1, hd2]
  · cases levelB with
    | none => rfl
    | some l0 =>
      cases pz with
      | none => rfl
      | some p0 =>
        cases h1 : (d2.isEmpty || l0.isEmpty || !p0.truthy) <;>
          simp [handlePostPuzzle, h1, hd2]
  · simp [handleDeletePuzzle, deletePuzzle, hnil, hself]

/-- Witness for the amended C4 theorem at concrete inputs. -/
theorem malformed_date_validation_witness :
    handleGetPuzzleByDate [⟨"2025-07-27", "CL", Json.str "p"⟩] "2025-1-1" none =
      { status := 400, body := errBody "Invalid date format. Use YYYY-MM-DD" } ∧
    (handlePostPuzzle [⟨"2025-07-27", "CL", Json.str "p"⟩] (some "20250101")
        (some "CL") none).1.status = 400 ∧
    (handlePostPuzzle [⟨"2025-07-27", "CL", Json.str "p"⟩] (some "20250101")
        (some "CL") none).2 = [⟨"2025-07-27", "CL", Json.str "p"⟩] ∧
    handleDeletePuzzle [⟨"2025-07-27", "CL", Json.str "p"⟩] "2025-1-1" =
      ({ status := 404, body := errBody "Puzzle not found" },
       [⟨"2025-07-27", "CL", Json.str "p"⟩]) :=
  malformed_date_validation [⟨"2025-07-27", "CL", Json.str "p"⟩] "2025-1-1"
    "20250101" none (some "CL") none (by decide) (by decide) (by decide)

/-- Claim C7 (confirmed): delete reports 404 exactly when zero rows were
affected; when some row has the date it returns 200; the resulting store
is the old one minus every row with that date regardless of level; a
subsequent lookup of that date misses, both at the statement level for
every level and at the endpoint level for every accepted level query. -/
theorem delete_by_date_spec (st : Store) (d : String)
    (hd : isValidDateFormat d = true) :
    ((handleDeletePuzzle st d).1.status = 404 ↔
      st.filter (fun r => r.date == d) = []) ∧
    ((∃ r ∈ st, r.date = d) → (handleDeletePuzzle st d).1.status = 200) ∧
    (handleDeletePuzzle st d).2 = st.filter (fun r => !(r.date == d)) ∧
    (∀ lvl, getPuzzleByDate (handleDeletePuzzle st d).2 d lvl = none) ∧
    (∀ lq, levelOk (jsOrStr lq "CL") = true →
      (handleGetPuzzleByDate (handleDeletePuzzle st d).2 d lq).status = 404) := by
  have hsnd : (handleDeletePuzzle st d).2 = st.filter (fun r => !(r.date == d)) := by
    simp only [handleDeletePuzzle, deletePuzzle]
    rw [apply_ite Prod.snd]
    simp
  have hiff : (handleDeletePuzzle st d).1.status = 404 ↔
      st.filter (fun r => r.date == d) = [] := by
    cases hf : st.filter (fun r => r.date == d) with
    | nil => simp [handleDeletePuzzle, deletePuzzle, hf]
    | cons a l => simp [handleDeletePuzzle, deletePuzzle, hf]
  refine ⟨hiff, ?_, hsnd, ?_, ?_⟩
  · rintro ⟨r, hr, hrd⟩
    have hne : st.filter (fun r => r.date == d) ≠ [] := by
      intro hcon
      have : r ∈ st.filter (fun r => r.date == d) :=
        List.mem_filter.mpr ⟨hr, by simp [hrd]⟩
      simp [hcon] at this
    cases hf : st.filter (fun r => r.date == d) with
    | nil => exact absurd hf hne
    | cons a l => simp [handleDeletePuzzle, deletePuzzle, hf]
  · intro lvl
    rw [hsnd]
    exact getPuzzleByDate_after_delete st d lvl
  · intro lq hlq
    have hnone : getPuzzleByDate (handleDeletePuzzle st d).2 d
        (jsToUpper (jsOrStr lq "CL")) = none := by
      rw [hsnd]
      exact getPuzzleByDate_after_delete st d _
    simp [handleGetPuzzleByDate, hd, hlq, hnone]

/-- Witness for the C7 theorem on a concrete store and date. -/
theorem delete_by_date_spec_witness :
    (handleDeletePuzzle [⟨"2025-07-27", "CL", Json.str "p"⟩] "2025-07-27").1.status
      = 200 ∧
    getPuzzleByDate
      (handleDeletePuzzle [⟨"2025-07-27", "CL", Json.str "p"⟩] "2025-07-27").2
      "2025-07-27" "CL" = none :=
  ⟨(delete_by_date_spec [⟨"2025-07-27", "CL", Json.str "p"⟩] "2025-07-27"
      (by decide)).2.1 ⟨⟨"2025-07-27", "CL", Json.str "p"⟩, by simp, rfl⟩,
   (delete_by_date_spec [⟨"2025-07-27", "CL", Json.str "p"⟩] "2025-07-27"
      (by decide)).2.2.2.1 "CL"⟩

/-- Claim C3 (confirmed): for every valid (date, level, content) triple,
the POST upsert succeeds with 201 and an immediately following lookup of
the same date and level — with no intervening write — returns exactly the
content written, both at the statement level and through the GET
endpoint. -/
theorem upsert_then_get_roundtrip (st : Store) (date level : String)
    (puzzle : Json)
    (hd : isValidDateFormat date = true)
    (hl : levelOk level = true)
    (hw : truthyOpt (puzzle.lookup "words") = true)
    (ht : truthyOpt (puzzle.lookup "targets") = true)
    (hs : truthyOpt (puzzle.lookup "solution") = true) :
    (handlePostPuzzle st (some date) (some level) (some puzzle)).1.status = 201 ∧
    getPuzzleByDate (handlePostPuzzle st (some date) (some level) (some puzzle)).2
      date (jsToUpper level) = some puzzle ∧
    handleGetPuzzleByDate
      (handlePostPuzzle st (some date) (some level) (some puzzle)).2
      date (some level) =
      { status := 200,
        body := .obj [("date", .str date), ("level", .str (jsToUpper level)),
                      ("puzzle", puzzle)] } := by
  have h1 : (date.isEmpty || level.isEmpty || !puzzle.truthy) = false := by
    simp [validDate_not_empty hd, levelOk_not_empty hl, truthy_of_field hw]
  have hpost : handlePostPuzzle st (some date) (some level) (some puzzle) =
      ({ status := 201,
         body := .obj [("message", .str "Puzzle created successfully"),
                       ("date", .str date), ("level", .str (jsToUpper level)),
                       ("puzzle", puzzle)] },
       insertPuzzle st date (jsToUpper level) puzzle) := by
    simp [handlePostPuzzle, h1, hd, hl, hw, ht, hs]
  refine ⟨by rw [hpost], ?_, ?_⟩
  · rw [hpost]
    exact getPuzzleByDate_insert st date (jsToUpper level) puzzle
  · rw [hpost]
    have hlevel : jsOrStr (some level) "CL" = level := by
      simp [jsOrStr, levelOk_not_empty hl]
    simp [handleGetPuzzleByDate, hlevel, hd, hl,
      getPuzzleByDate_insert st date (jsToUpper level) puzzle]

/-- Witness for the C3 round-trip theorem at a concrete triple. -/
theorem upsert_then_get_roundtrip_witness :
    (handlePostPuzzle [] (some "2025-07-27") (some "cl")
        (some (Json.obj [("words", .arr [.str "AB"]), ("targets", .arr [.num 3]),
                         ("solution", .arr [.str "AB"])]))).1.status = 201 ∧
    getPuzzleByDate
      (handlePostPuzzle [] (some "2025-07-27") (some "cl")
        (some (Json.obj [("words", .arr [.str "AB"]), ("targets", .arr [.num 3]),
                         ("solution", .arr [.str "AB"])]))).2
      "2025-07-27" (jsToUpper "cl") =
      some (Json.obj [("words", .arr [.str "AB"]), ("targets", .arr [.num 3]),
                      ("solution", .arr [.str "AB"])]) ∧
    handleGetPuzzleByDate
      (handlePostPuzzle [] (some "2025-07-27") (some "cl")
        (some (Json.obj [("words", .arr [.str "AB"]), ("targets", .arr [.num 3]),
                         ("solution", .arr [.str "AB"])]))).2
      "2025-07-27" (some "cl") =
      { status := 200,
        body := .obj [("date", .str "2025-07-27"),
                      ("level", .str (jsToUpper "cl")),
                      ("puzzle", Json.obj [("words", .arr [.str "AB"]),
                        ("targets", .arr [.num 3]),
                        ("solution", .arr [.str "AB"])])] } :=
  upsert_then_get_roundtrip [] "2025-07-27" "cl"
    (Json.obj [("words", .arr [.str "AB"]), ("targets", .arr [.num 3]),
               ("solution", .arr [.str "AB"])])
    (by decide) (by decide) (by decide) (by decide) (by decide)

/-- `ORDER BY puzzle_date DESC` returns a permutation of its input. -/
theorem sortByDateDesc_perm (l : List Row) : (sortByDateDesc l).Perm l :=
  List.mergeSort_perm l _

/-- `ORDER BY puzzle_date DESC` sorts descending by date. -/
theorem sortByDateDesc_pairwise (l : List Row) :
    List.Pairwise (fun a b : Row => b.date ≤ a.date) (sortByDateDesc l) := by
  have h := @List.sorted_mergeSort Row (fun a b : Row => decide (b.date ≤ a.date))
    (fun a b c h1 h2 => by
      simp only [decide_eq_true_eq] at h1 h2 ⊢
      exact le_trans h2 h1)
    (fun a b => by
      simp only [Bool.or_eq_true, decide_eq_true_eq]
      exact le_total b.date a.date)
    l
  exact h.imp (fun hab => of_decide_eq_true hab)

/-- Claim C6 (amended, proved): the full listing returns one item per
stored puzzle — its date and its content only — unfiltered by level and
ordered by date descending. -/
theorem listing_amended (st : Store) :
    (handleAllPuzzles st).status = 200 ∧
    ∃ l : List Row, l.Perm st ∧
      List.Pairwise (fun a b : Row => b.date ≤ a.date) l ∧
      (handleAllPuzzles st).body =
        Json.obj [("puzzles", Json.arr (l.map (fun r =>
          Json.obj [("date", Json.str r.date), ("puzzle", r.data)])))] := by
  refine ⟨rfl, sortByDateDesc st, sortByDateDesc_perm st,
    sortByDateDesc_pairwise st, ?_⟩
  simp [handleAllPuzzles, getAllPuzzles]

/-- Claim C5 (confirmed): for an anchor that is a real calendar date and
an accepted level, the week query returns exactly the stored rows at that
level whose date lies in the inclusive range from six calendar days before
the anchor to the anchor — a permutation of the matching rows, sorted
descending by date, with no padding for absent dates — and the endpoint
reports 404 exactly when no row matches, else 200.  The lower bound is the
genuine Gregorian subtraction `prevDay^[6]`; the range bounds are string
comparisons, exactly as SQLite compares the TEXT column, and on
zero-padded `YYYY-MM-DD` strings lexicographic order is chronological
order. -/
theorem week_window_spec (st : Store) (D : String) (lq : Option String)
    (x : YMD) (hD : parseDate D = some x)
    (hl : levelOk (jsOrStr lq "CL") = true) :
    (getWeekPuzzles st D D (jsToUpper (jsOrStr lq "CL"))).Perm
      (st.filter (fun r =>
        decide (formatDate (prevDay^[6] x) ≤ r.date) && decide (r.date ≤ D) &&
        r.level == jsToUpper (jsOrStr lq "CL"))) ∧
    List.Pairwise (fun a b : Row => b.date ≤ a.date)
      (getWeekPuzzles st D D (jsToUpper (jsOrStr lq "CL"))) ∧
    ((handleWeek st D lq).status = 404 ↔
      getWeekPuzzles st D D (jsToUpper (jsOrStr lq "CL")) = []) ∧
    (getWeekPuzzles st D D (jsToUpper (jsOrStr lq "CL")) ≠ [] →
      (handleWeek st D lq).status = 200) := by
  have hweek : getWeekPuzzles st D D (jsToUpper (jsOrStr lq "CL")) =
      sortByDateDesc (st.filter (fun r =>
        decide (formatDate (prevDay^[6] x) ≤ r.date) && decide (r.date ≤ D) &&
        r.level == jsToUpper (jsOrStr lq "CL"))) := by
    simp [getWeekPuzzles, sqlDateSub6, hD]
  refine ⟨?_, ?_, ?_, ?_⟩
  · rw [hweek]
    exact sortByDateDesc_perm _
  · rw [hweek]
    exact sortByDateDesc_pairwise _
  · cases hres : getWeekPuzzles st D D (jsToUpper (jsOrStr lq "CL")) with
    | nil => simp [handleWeek, hl, hres]
    | cons a l => simp [handleWeek, hl, hres]
  · intro hne
    cases hres : getWeekPuzzles st D D (jsToUpper (jsOrStr lq "CL")) with
    | nil => exact absurd hres hne
    | cons a l => simp [handleWeek, hl, hres]

/-- Witness for the C5 week-window theorem on a concrete store and
anchor. -/
theorem week_window_spec_witness :
    (getWeekPuzzles [⟨"2025-07-27", "CL", Json.str "a"⟩,
        ⟨"2025-07-20", "CL", Json.str "b"⟩] "2025-07-27" "2025-07-27"
        (jsToUpper (jsOrStr (some "CL") "CL"))).Perm
      ([⟨"2025-07-27", "CL", Json.str "a"⟩,
        ⟨"2025-07-20", "CL", Json.str "b"⟩].filter (fun r =>
        decide (formatDate (prevDay^[6] (⟨2025, 7, 27⟩ : YMD)) ≤ r.date) &&
        decide (r.date ≤ "2025-07-27") &&
        r.level == jsToUpper (jsOrStr (some "CL") "CL"))) ∧
    List.Pairwise (fun a b : Row => b.date ≤ a.date)
      (getWeekPuzzles [⟨"2025-07-27", "CL", Json.str "a"⟩,
        ⟨"2025-07-20", "CL", Json.str "b"⟩] "2025-07-27" "2025-07-27"
        (jsToUpper (jsOrStr (some "CL") "CL"))) ∧
    ((handleWeek [⟨"2025-07-27", "CL", Json.str "a"⟩,
        ⟨"2025-07-20", "CL", Json.str "b"⟩] "2025-07-27" (some "CL")).status = 404 ↔
      getWeekPuzzles [⟨"2025-07-27", "CL", Json.str "a"⟩,
        ⟨"2025-07-20", "CL", Json.str "b"⟩] "2025-07-27" "2025-07-27"
        (jsToUpper (jsOrStr (some "CL") "CL")) = []) ∧
    (getWeekPuzzles [⟨"2025-07-27", "CL", Json.str "a"⟩,
        ⟨"2025-07-20", "CL", Json.str "b"⟩] "2025-07-27" "2025-07-27"
        (jsToUpper (jsOrStr (some "CL") "CL")) ≠ [] →
      (handleWeek [⟨"2025-07-27", "CL", Json.str "a"⟩,
        ⟨"2025-07-20", "CL", Json.str "b"⟩] "2025-07-27" (some "CL")).status = 200) :=
  week_window_spec [⟨"2025-07-27", "CL", Json.str "a"⟩,
    ⟨"2025-07-20", "CL", Json.str "b"⟩] "2025-07-27" (some "CL")
    ⟨2025, 7, 27⟩ (by decide) (by decide)

/-- Hex rendering doubles the byte count. -/
theorem flatMap_byteHex_length (l : List Nat) :
    (l.flatMap byteHex).length = 2 * l.length := by
  induction l with
  | nil => rfl
  | cons a t ih =>
    simp only [List.flatMap_cons, List.length_append, ih, byteHex,
      List.length_cons, List.length_nil]
    omega

/-- An MD5 digest is sixteen bytes. -/
theorem md5_length (msg : List Nat) : (md5 msg).length = 16 := by
  simp [md5, wordBytes]

/-- The hex digest is 32 characters. -/
theorem md5Hex_data_length (msg : List Nat) : (md5Hex msg).data.length = 32 := by
  have h1 : (md5Hex msg).data = (md5 msg).flatMap byteHex := rfl
  rw [h1, flatMap_byteHex_length, md5_length]

/-- The derived pseudo-identity token is always eight characters. -/
theorem generateUserID_length (req : HttpReq) :
    (generateUserID req).length = 8 := by
  have h1 : (generateUserID req).length =
      ((md5Hex (strToBytes (getClientIP req ++ jsOrStr req.userAgent ""))).data.take
        8).length := rfl
  rw [h1, List.length_take, md5Hex_data_length]
  rfl

/-- Claim C9 (confirmed): `generateUserID` is deterministic in the pair
(apparent client IP, user-agent) — two requests agreeing on both yield the
identical token — and the token is exactly the MD5 hex digest of the
concatenation of the apparent IP (forwarded-for header first, else the
peer address) and the user-agent, truncated to the fixed length eight. -/
theorem deriveIdentity_spec (r1 r2 : HttpReq)
    (hip : getClientIP r1 = getClientIP r2)
    (hua : r1.userAgent = r2.userAgent) :
    generateUserID r1 = generateUserID r2 ∧
    (generateUserID r1).length = 8 ∧
    generateUserID r1 =
      strTake (md5Hex (strToBytes (getClientIP r1 ++ jsOrStr r1.userAgent ""))) 8 := by
  refine ⟨?_, generateUserID_length r1, rfl⟩
  simp only [generateUserID, hip, hua]

/-- Witness for the C9 determinism theorem: two requests whose raw headers
differ (one carries a forwarded-for list, the other only a peer address)
but whose apparent IP and user-agent agree get the identical token. -/
theorem deriveIdentity_spec_witness :
    generateUserID ⟨"GET", "/x", [], .null, some "1.2.3.4, 9.9.9.9", some "UA",
        none, none, some "7.7.7.7", none⟩ =
      generateUserID ⟨"GET", "/y", [], .null, none, some "UA",
        none, none, some "1.2.3.4", none⟩ :=
  (deriveIdentity_spec
    ⟨"GET", "/x", [], .null, some "1.2.3.4, 9.9.9.9", some "UA",
      none, none, some "7.7.7.7", none⟩
    ⟨"GET", "/y", [], .null, none, some "UA", none, none, some "1.2.3.4", none⟩
    (by decide) rfl).1

/-- A rejection from the authentication middleware is always a 401. -/
theorem authenticateApiKey_status {env : Option String} {req : HttpReq}
    {r : Response} (h : authenticateApiKey env req = some r) :
    r.status = 401 := by
  unfold authenticateApiKey at h
  cases hk : jsOrOpt req.xApiKey
      (req.authorization.map (fun a => replaceFirst a "Bearer " "")) with
  | none =>
    rw [hk] at h
    simp only [Option.some.injEq] at h
    rw [← h]
    rfl
  | some k =>
    rw [hk] at h
    by_cases he : k.isEmpty = true
    · simp only [he, if_true, Option.some.injEq] at h
      rw [← h]
      rfl
    · simp only [he, if_false, Bool.false_eq_true] at h
      by_cases hv : (env != some k) = true
      · simp only [hv, if_true, Option.some.injEq] at h
        rw [← h]
        rfl
      · simp only [hv, if_false, Bool.false_eq_true] at h
        cases h

/-- Claim C10 (confirmed): for a GET whose path lies under the
puzzle-serving endpoints, the analytics middleware appends the
`api_request` event before the credential check runs, so when
authentication rejects the request the response is the 401 rejection, the
puzzle store is untouched, and the event is nevertheless recorded. -/
theorem analytics_event_recorded_before_auth (env : Option String)
    (st : Store) (log : List AnalyticsRow) (nowIso : String) (req : HttpReq)
    (r : Response)
    (hm : req.method = "GET")
    (hp : strStartsWith req.path "/api/puzzle" = true)
    (hmount : (req.path == "/api" || strStartsWith req.path "/api/") = true)
    (hroot : (req.path == "/") = false)
    (hhealth : (req.path == "/health") = false)
    (hauth : authenticateApiKey env req = some r) :
    handleApp env st log nowIso req =
      (r, st, log ++ [{ eventType := "api_request",
                        userId := generateUserID req,
                        puzzleDate := none,
                        userAgent := jsOrStr req.userAgent "unknown",
                        ipAddress := getClientIP req,
                        metadata := apiRequestMetadata req }]) ∧
    r.status = 401 := by
  refine ⟨?_, authenticateApiKey_status hauth⟩
  simp [handleApp, analyticsMiddleware, trackEvent, hm, hp, hmount, hroot,
    hhealth, hauth]

/-- Witness for the C10 theorem: a GET for a puzzle with no API key against
a server configured with a secret is rejected 401 yet the event lands in
the analytics log. -/
theorem analytics_event_recorded_before_auth_witness :
    handleApp (some "secret") [] [] "2025-07-27T00:00:00.000Z"
      ⟨"GET", "/api/puzzle/2025-07-27", [("level", "CL")], .null, none,
        some "UA", none, none, some "1.2.3.4", none⟩ =
      (apiKeyRequiredResp, [],
       [] ++ [{ eventType := "api_request",
                userId := generateUserID
                  ⟨"GET", "/api/puzzle/2025-07-27", [("level", "CL")], .null,
                    none, some "UA", none, none, some "1.2.3.4", none⟩,
                puzzleDate := none,
                userAgent := jsOrStr (some "UA") "unknown",
                ipAddress := getClientIP
                  ⟨"GET", "/api/puzzle/2025-07-27", [("level", "CL")], .null,
                    none, some "UA", none, none, some "1.2.3.4", none⟩,
                metadata := apiRequestMetadata
                  ⟨"GET", "/api/puzzle/2025-07-27", [("level", "CL")], .null,
                    none, some "UA", none, none, some "1.2.3.4", none⟩ }]) ∧
    apiKeyRequiredResp.status = 401 :=
  analytics_event_recorded_before_auth (some "secret") [] []
    "2025-07-27T00:00:00.000Z"
    ⟨"GET", "/api/puzzle/2025-07-27", [("level", "CL")], .null, none,
      some "UA", none, none, some "1.2.3.4", none⟩
    apiKeyRequiredResp rfl (by decide) (by decide) (by decide) (by decide) rfl

end GramGrid
